import Mathlib

/-!
A verification development for the nanoslide staged generation pipeline
(`src/nanoslide/main.py` and `src/nanoslide/utils/google_caller.py`).

The Python sources are shallowly embedded: the file store is the list of
existing paths, each stage loop is an explicit recursive function that
records a trace step per unit, the external generation capability is an
oracle parameter, and Python strings are handled through their character
sequences (`String.data`).  Theorems named `C1_...` through `C10_...` settle
the frozen claims about the pipeline.

First the string primitives modelling the Python string operations used by
the sources.
-/

/-- Does the character list `xs` start with `pre`?  Models `str.startswith`
restricted to the character-sequence view. -/
def listStarts : List Char → List Char → Bool
  | [], _ => true
  | _ :: _, [] => false
  | p :: ps, c :: cs => p = c && listStarts ps cs

/-- Python `s.startswith(pre)` on the character-sequence view of strings. -/
def pyStartsWith (s pre : String) : Bool :=
  listStarts pre.data s.data

/-- Python `s.isdigit()` restricted to ASCII digits: true on a nonempty
all-digit character sequence, false on the empty sequence. -/
def pyIsDigit (cs : List Char) : Bool :=
  !cs.isEmpty && cs.all Char.isDigit

/-- Value of a decimal digit sequence, as computed by Python `int(s)` on an
all-digit string. -/
def digitsToNat (cs : List Char) : Nat :=
  cs.foldl (fun a c => 10 * a + (c.toNat - 48)) 0

/-- Fuel-driven worker for `pySplit`; `fuel` bounds the number of characters
still to scan, so the recursion is structural. -/
def splitGo (sep : List Char) : Nat → List Char → List (List Char)
  | _, [] => [[]]
  | 0, xs => [xs]
  | fuel + 1, x :: xs =>
    if sep ≠ [] ∧ listStarts sep (x :: xs) then
      [] :: splitGo sep fuel ((x :: xs).drop sep.length)
    else
      match splitGo sep fuel xs with
      | [] => [[x]]
      | h :: t => (x :: h) :: t

/-- Python `s.split(sep)` (left-to-right, non-overlapping) on character
sequences. -/
def pySplit (sep xs : List Char) : List (List Char) :=
  splitGo sep xs.length xs

/-- The final path component (`pathlib.Path(p).name`): the last nonempty
`/`-separated piece. -/
def pyName (p : List Char) : List Char :=
  ((pySplit ['/'] p).filter (fun part => part ≠ [])).getLastD []

/-- Index of the last occurrence of `c` in `xs`, if any. -/
def lastIdxOf (c : Char) (xs : List Char) : Option Nat :=
  (xs.reverse.findIdx? (fun d => d = c)).map (fun j => xs.length - 1 - j)

/-- Python `pathlib.Path(p).stem`: the final path component with its last dot-suffix
removed, where a suffix requires the dot to be neither first nor last in the
name (pathlib: `if 0 < i < len(name) - 1`). -/
def pyStem (p : List Char) : List Char :=
  let nm := pyName p
  match lastIdxOf '.' nm with
  | some i => if 0 < i ∧ i + 1 < nm.length then nm.take i else nm
  | none => nm

/-- The stem `Path(p).stem` repackaged as a string. -/
def pathStem (p : String) : String :=
  String.mk (pyStem p.data)

/-- Numeric suffix of a plan key, as the source computes it at
`main.py:172-175` and `main.py:180-182`: `int(x[1:])` when `len(x) > 1` and
`x[1:].isdigit()`, else `0`. -/
def numKey (x : String) : Nat :=
  if 1 < x.data.length ∧ pyIsDigit (x.data.drop 1) then
    digitsToNat (x.data.drop 1)
  else 0


/-- The comparison used by the plan-key sort: numeric suffix, ascending. -/
def keyLe (a b : String) : Prop := numKey a ≤ numKey b

instance decKeyLe : DecidableRel keyLe := fun a b =>
  inferInstanceAs (Decidable (numKey a ≤ numKey b))

instance keyLeTotal : IsTotal String keyLe := ⟨fun _ _ => Nat.le_total _ _⟩

instance keyLeTrans : IsTrans String keyLe := ⟨fun _ _ _ => Nat.le_trans⟩

/-- From `main.py:171`: the plan keys treated as slide units — exactly the keys
`startswith("s")`. -/
def slideKeys (plan : List (String × String)) : List String :=
  (plan.map Prod.fst).filter (fun k => pyStartsWith k "s")

/-- From `main.py:276`: the plan keys treated as transition units — exactly the
keys `startswith("v")`. -/
def videoKeys (plan : List (String × String)) : List String :=
  (plan.map Prod.fst).filter (fun k => pyStartsWith k "v")

/-- From `main.py:172-175`: slide keys sorted by numeric suffix.  Python `sorted`
is the stable sort by the key function, which is exactly
`List.insertionSort keyLe`. -/
def sortedSlideKeys (plan : List (String × String)) : List String :=
  List.insertionSort keyLe (slideKeys plan)

/-- From `main.py:277-280`: video keys sorted by numeric suffix (same sort). -/
def sortedVideoKeys (plan : List (String × String)) : List String :=
  List.insertionSort keyLe (videoKeys plan)

/-! ## Artifact paths and the file-store model

The store is the set of existing file paths, as a list of strings.
-/

/-- Insert a path into the store (idempotent: writing a file that exists
overwrites it, leaving the set of locations unchanged). -/
def insertP (p : String) (fs : List String) : List String :=
  if fs.contains p then fs else p :: fs

/-- Remove a path from the store (`Path.unlink`). -/
def removeP (p : String) (fs : List String) : List String :=
  fs.filter (fun q => q ≠ p)

/-- From `main.py:183` and `main.py:301-302`: the slide artifact path
`<slidesDir>/slide_p<n>.png`. -/
def slideArtifactPath (slidesDir : String) (n : Nat) : String :=
  slidesDir ++ "/slide_p" ++ Nat.repr n ++ ".png"

/-- The target path of the slide unit for key `k`: the slide number is the
same numeric-suffix computation as the sort key (`main.py:180-183`). -/
def slidePath (slidesDir : String) (k : String) : String :=
  slideArtifactPath slidesDir (numKey k)

/-- From `main.py:293`: the video artifact path `<videoDir>/segment_<n>.mp4`. -/
def segmentPath (videoDir : String) (n : Nat) : String :=
  videoDir ++ "/segment_" ++ Nat.repr n ++ ".mp4"


/-! ## The slide stage runner (`gen_slide` loop, `main.py:177-216`) -/

/-- What happened to one slide unit: skipped by the skip-if-exists policy
(`main.py:186-189`, no generator call), or generated with the recorded
`reference_image_path` argument of the `GoogleCaller.generate_image` call
(`main.py:206-210`). -/
inductive SlideOutcome where
  | skipped
  | generated (refArg : Option String)
deriving DecidableEq

/-- Trace record for one slide unit: the key, its target artifact path, the
store and `previous_slide_path` as they were when the unit was examined, and
the outcome. -/
structure SlideStep where
  key : String
  target : String
  fsBefore : List String
  prevBefore : Option String
  outcome : SlideOutcome
deriving DecidableEq

/-- One iteration of the `gen_slide` loop (`main.py:178-216`): compute the
target path; if the skip-if-exists policy is on and the target exists, skip
and set `previous = target`; otherwise call the generator, passing
`previous_slide_path` as reference exactly when it is set and exists on disk
(`main.py:195`, `main.py:209`), save the image at the target, and set
`previous = target`.  Returns the new store, the new `previous`, and the
trace record. -/
def slideStep (exist : Bool) (slidesDir : String) (fs : List String)
    (prev : Option String) (k : String) :
    List String × Option String × SlideStep :=
  let target := slidePath slidesDir k
  if exist ∧ fs.contains target then
    (fs, some target, ⟨k, target, fs, prev, .skipped⟩)
  else
    let hasRef := match prev with
      | some p => fs.contains p
      | none => false
    let refArg := if hasRef then prev else none
    (insertP target fs, some target, ⟨k, target, fs, prev, .generated refArg⟩)

/-- The `gen_slide` loop over a list of (already sorted) keys, threading the
store and `previous_slide_path` (initially `None`, `main.py:177`). -/
def runSlides (exist : Bool) (slidesDir : String) :
    List String → Option String → List String → List String × List SlideStep
  | fs, _, [] => (fs, [])
  | fs, prev, k :: ks =>
    let r := slideStep exist slidesDir fs prev k
    let rest := runSlides exist slidesDir r.1 r.2.1 ks
    (rest.1, r.2.2 :: rest.2)

/-! ## The video stage runner (`gen_video` loop, `main.py:283-335`) -/

/-- Video payloads are opaque byte-streams. -/
abbrev VideoBytes := List Nat

/-- What happened to one transition unit: skipped because the segment already
exists (`main.py:296-298`), skipped with a warning because a bracketing slide
artifact is missing (`main.py:304-308`), saved (`main.py:331-333`), or the
provider returned no usable video and a warning was recorded
(`main.py:334-335`). -/
inductive VideoOutcome where
  | skippedExists
  | missingDep
  | saved (v : VideoBytes)
  | noResultWarning
deriving DecidableEq

/-- Trace record for one transition unit. -/
structure VideoStep where
  key : String
  target : String
  fsBefore : List String
  outcome : VideoOutcome
deriving DecidableEq

/-- One iteration of the `gen_video` loop (`main.py:283-335`).  `oracle`
abstracts the provider: the `response.video` field of the
`generate_video_interpolation` call for this unit (`None` or bytes; Python
treats empty bytes as falsy, hence the `isEmpty` test). -/
def videoStep (exist : Bool) (oracle : String → Option VideoBytes)
    (slidesDir videoDir : String) (fs : List String) (k : String) :
    List String × VideoStep :=
  let n := numKey k
  let target := segmentPath videoDir n
  if exist ∧ fs.contains target then
    (fs, ⟨k, target, fs, .skippedExists⟩)
  else
    let slide1 := slideArtifactPath slidesDir n
    let slide2 := slideArtifactPath slidesDir (n + 1)
    if ¬ fs.contains slide1 ∨ ¬ fs.contains slide2 then
      (fs, ⟨k, target, fs, .missingDep⟩)
    else
      match oracle k with
      | some v =>
        if v.isEmpty then (fs, ⟨k, target, fs, .noResultWarning⟩)
        else (insertP target fs, ⟨k, target, fs, .saved v⟩)
      | none => (fs, ⟨k, target, fs, .noResultWarning⟩)

/-- The `gen_video` loop over a list of (already sorted) keys. -/
def runVideos (exist : Bool) (oracle : String → Option VideoBytes)
    (slidesDir videoDir : String) :
    List String → List String → List String × List VideoStep
  | fs, [] => (fs, [])
  | fs, k :: ks =>
    let r := videoStep exist oracle slidesDir videoDir fs k
    let rest := runVideos exist oracle slidesDir videoDir r.1 ks
    (rest.1, r.2 :: rest.2)

/-! ## The video-interpolation adapter
(`GoogleCaller.generate_video_interpolation`, `google_caller.py:121-169`) -/

/-- A provider operation snapshot: done flag and, when a response is present,
its `generated_videos` list.  A `none` response models a falsy
`operation.response`; an empty list models falsy
`operation.response.generated_videos`. -/
structure Operation where
  done : Bool
  response : Option (List VideoBytes)
deriving DecidableEq

/-- The polling loop of `generate_video_interpolation`
(`google_caller.py:157-161`): while the operation is not done, sleep 10
seconds and re-fetch it.  `ops j` is the operation as observed by the `j`-th
fetch (`ops 0` is the submission result); `slept` accumulates the seconds
spent in `time.sleep(10)`.  Returns the index of the first done observation
and the total seconds slept, or `none` if the fuel runs out before the
provider reports done (the source loop would still be polling). -/
def pollLoop (ops : Nat → Operation) : Nat → Nat → Nat → Option (Nat × Nat)
  | _, _, 0 => none
  | i, slept, fuel + 1 =>
    if (ops i).done then some (i, slept)
    else pollLoop ops (i + 1) (slept + 10) fuel

/-- The observable result of one adapter call: which poll finished, how long
the caller was blocked sleeping, the final operation, and the returned
`LMResponse.video` field. -/
structure AdapterRun where
  doneIndex : Nat
  sleptSeconds : Nat
  finalOp : Operation
  video : Option VideoBytes
deriving DecidableEq

/-- Model of `generate_video_interpolation` (`google_caller.py:121-169`): poll until
done, then download `generated_videos[0]` when the response is truthy and has
at least one video, else return a response with `video=None`. -/
def generateVideoInterpolation (ops : Nat → Operation) (fuel : Nat) :
    Option AdapterRun :=
  match pollLoop ops 0 0 fuel with
  | none => none
  | some (i, slept) =>
    let op := ops i
    let vb := match op.response with
      | some (v :: _) => some v
      | _ => none
    some ⟨i, slept, op, vb⟩

/-- The spec's taxonomy name for the adapter's two terminal outcomes:
a final video artifact, or the no-result failure signal (the spec's
`GenerationFailedError`: the adapter hands back no video and the caller at
`main.py:334-335` records a warning). -/
inductive GenOutcome where
  | artifact (v : VideoBytes)
  | generationFailed
deriving DecidableEq

/-- How the caller classifies an adapter run (`main.py:331-335`). -/
def genOutcome (r : AdapterRun) : GenOutcome :=
  match r.video with
  | some v => .artifact v
  | none => .generationFailed

/-! ## Video merging (`_merge_videos`, `main.py:392-465`) -/

/-- Result of `_merge_videos`: normal return, or the `typer.Exit(1)` raised
when the ffmpeg fallback fails (`main.py:432-438`). -/
inductive MergeOutcome where
  | ok
  | exitOne
deriving DecidableEq

/-- Model of `_merge_videos` (`main.py:392-465`).  When moviepy is available the
primary path concatenates with moviepy and writes the output.  Otherwise the
fallback writes a temporary manifest file (the `tempfile` name is the
`manifest` parameter), runs ffmpeg concat (success abstracted by
`ffmpegOk`), and the `finally` block unlinks the manifest on both the
success path and the failure path before `typer.Exit(1)` propagates. -/
def mergeVideos (moviepyAvail ffmpegOk : Bool) (manifest outputPath : String)
    (_videoFiles : List String) (fs : List String) :
    MergeOutcome × List String :=
  if moviepyAvail then
    (.ok, insertP outputPath fs)
  else
    let fs1 := insertP manifest fs
    if ffmpegOk then
      (.ok, removeP manifest (insertP outputPath fs1))
    else
      (.exitOne, removeP manifest fs1)

/-! ## PowerPoint fusion (`_create_pptx`, `main.py:32-74`) -/

/-- Sort value used for `slide_*.png` files (`main.py:40-42`):
`int(stem.split("_p")[-1])` when `"_p" in stem` and that last piece is all
digits, else `0`. -/
def pptxNum (p : String) : Nat :=
  let st := pyStem p.data
  let parts := pySplit ['_', 'p'] st
  let last := parts.getLastD []
  if 1 < parts.length ∧ pyIsDigit last then digitsToNat last else 0

/-- The comparison for the pptx slide-file sort. -/
def pptxLe (a b : String) : Prop := pptxNum a ≤ pptxNum b

instance decPptxLe : DecidableRel pptxLe := fun a b =>
  inferInstanceAs (Decidable (pptxNum a ≤ pptxNum b))

instance pptxLeTotal : IsTotal String pptxLe := ⟨fun _ _ => Nat.le_total _ _⟩

instance pptxLeTrans : IsTrans String pptxLe := ⟨fun _ _ _ => Nat.le_trans⟩

/-- Does the character list `xs` end with `sfx`? -/
def listEnds (sfx xs : List Char) : Bool :=
  listStarts sfx.reverse xs.reverse

/-- Model of `slides_dir.glob("slide_*.png")` (`main.py:38-39`): the store paths that
are directly inside `dir` and whose name matches `slide_*.png`. -/
def globSlides (dir : String) (fs : List String) : List String :=
  fs.filter (fun p =>
    pyStartsWith p (dir ++ "/slide_") &&
    listEnds ".png".data p.data &&
    !(p.data.drop (dir.data.length + 1)).contains '/')

/-- One picture placed on one presentation page, in milli-inches
(`Inches(13.333)` is recorded as `13333`). -/
structure Pic where
  image : String
  left : Nat
  top : Nat
  width : Nat
  height : Nat
deriving DecidableEq

/-- The composite presentation produced by `_create_pptx`. -/
structure Pptx where
  slideWidth : Nat
  slideHeight : Nat
  pages : List Pic
deriving DecidableEq

/-- Result of `_create_pptx`: the no-slides warning return (`main.py:45-47`)
or the saved presentation. -/
inductive PptxResult where
  | noSlidesWarning
  | created (prs : Pptx)
deriving DecidableEq

/-- Model of `_create_pptx` (`main.py:32-74`): glob the slide images, sort them by
`pptxNum` (Python stable sort = `insertionSort`), warn and return if none,
else build a 13.333 in × 7.5 in presentation with one full-bleed picture per
slide file, in sorted order. -/
def createPptx (slidesDir : String) (fs : List String) : PptxResult :=
  let slideFiles := List.insertionSort pptxLe (globSlides slidesDir fs)
  if slideFiles.isEmpty then .noSlidesWarning
  else
    let w := 13333
    let h := 7500
    .created ⟨w, h, slideFiles.map (fun f => ⟨f, 0, 0, w, h⟩)⟩

/-! ## Full stage entry points (`gen_slide`, `gen_video`, `fuse`) -/

/-- Persistent state consumed by a stage: the set of existing paths and the
parsed contents of the plan-JSON files, as an association list. -/
structure Store where
  paths : List String
  plans : List (String × List (String × String))
deriving DecidableEq

/-- Model of `get_output_dir` (`main.py:21-29`): `<output_dir>/<pdf_stem>` — the only
use the slide, video and fusion stages make of the `pdf` argument. -/
def getOutputDir (pdf outputDir : String) : String :=
  outputDir ++ "/" ++ pathStem pdf

/-- Body of `gen_slide` (`main.py:149-224`) with the result directory already
computed: resolve the plan file (defaulting to `<resultDir>/plan.json`), read
it (`none` models the `json.loads`/`read_text` failure when it is absent),
run the slide loop, then run `_create_pptx`, writing `presentation.pptx`
iff it created one. -/
def genSlideAt (resultDir : String) (planFileArg : Option String)
    (exist : Bool) (st : Store) : Option (List SlideStep × Store) :=
  let planPath := planFileArg.getD (resultDir ++ "/plan.json")
  match st.plans.lookup planPath with
  | none => none
  | some plan =>
    let slidesDir := resultDir ++ "/slide_pieces"
    let paths0 := insertP slidesDir (insertP resultDir st.paths)
    let r := runSlides exist slidesDir paths0 none (sortedSlideKeys plan)
    let pptxPath := resultDir ++ "/presentation.pptx"
    let paths1 := match createPptx slidesDir r.1 with
      | .created _ => insertP pptxPath r.1
      | .noSlidesWarning => r.1
    some (r.2, ⟨paths1, st.plans⟩)

/-- Model of `gen_slide` (`main.py:134-224`): everything after the `pdf` argument is a
function of `get_output_dir(pdf, output_dir)` alone. -/
def genSlideFull (pdf outputDir : String) (planFileArg : Option String)
    (exist : Bool) (st : Store) : Option (List SlideStep × Store) :=
  genSlideAt (getOutputDir pdf outputDir) planFileArg exist st

/-- Body of `gen_video` (`main.py:228-338`) with the result directory already
computed.  `none` models the `typer.Exit(1)` on a missing plan file
(`main.py:255-257`) or missing slides directory (`main.py:260-264`), and the
unreadable-plan failure. -/
def genVideoAt (resultDir : String) (planFileArg : Option String)
    (exist : Bool) (oracle : String → Option VideoBytes) (st : Store) :
    Option (List VideoStep × Store) :=
  let planPath := planFileArg.getD (resultDir ++ "/plan.json")
  let paths0 := insertP resultDir st.paths
  if ¬ paths0.contains planPath then none
  else
    let slidesDir := resultDir ++ "/slide_pieces"
    if ¬ paths0.contains slidesDir then none
    else
      match st.plans.lookup planPath with
      | none => none
      | some plan =>
        let videoDir := resultDir ++ "/video"
        let paths1 := insertP videoDir paths0
        let r := runVideos exist oracle slidesDir videoDir paths1 (sortedVideoKeys plan)
        some (r.2, ⟨r.1, st.plans⟩)

/-- Model of `gen_video` (`main.py:228-338`): a function of
`get_output_dir(pdf, output_dir)` alone. -/
def genVideoFull (pdf outputDir : String) (planFileArg : Option String)
    (exist : Bool) (oracle : String → Option VideoBytes) (st : Store) :
    Option (List VideoStep × Store) :=
  genVideoAt (getOutputDir pdf outputDir) planFileArg exist oracle st

/-- Sort value used for `segment_*.mp4` files in `fuse` (`main.py:516-521`):
`int(stem.split("_")[-1])` when that last piece is all digits, else `0`. -/
def segNum (p : String) : Nat :=
  let last := (pySplit ['_'] (pyStem p.data)).getLastD []
  if pyIsDigit last then digitsToNat last else 0

/-- The comparison for the video-segment sort. -/
def segLe (a b : String) : Prop := segNum a ≤ segNum b

instance decSegLe : DecidableRel segLe := fun a b =>
  inferInstanceAs (Decidable (segNum a ≤ segNum b))

/-- Model of `video_dir.glob("segment_*.mp4")` (`main.py:517`). -/
def globSegments (dir : String) (fs : List String) : List String :=
  fs.filter (fun p =>
    pyStartsWith p (dir ++ "/segment_") &&
    listEnds ".mp4".data p.data &&
    !(p.data.drop (dir.data.length + 1)).contains '/')

/-- Observable result of `fuse`: the final store paths and whether a
`typer.Exit(1)` escaped from `_merge_videos`. -/
structure FuseRun where
  paths : List String
  exited : Bool
deriving DecidableEq

/-- Body of `fuse` (`main.py:468-535`) with the result directory already
computed: optionally fuse slides into a presentation (warning when the slides
directory is missing), then optionally merge the sorted video segments into
`video/fused.mp4` (warnings when the video directory is missing or holds no
segments). -/
def fuseAt (resultDir : String) (slidesFlag videoFlag : Bool)
    (moviepyAvail ffmpegOk : Bool) (manifest : String) (st : Store) : FuseRun :=
  let paths0 := insertP resultDir st.paths
  let paths1 :=
    if slidesFlag then
      let slidesDir := resultDir ++ "/slide_pieces"
      if paths0.contains slidesDir then
        match createPptx slidesDir paths0 with
        | .created _ => insertP (resultDir ++ "/presentation.pptx") paths0
        | .noSlidesWarning => paths0
      else paths0
    else paths0
  if videoFlag then
    let videoDir := resultDir ++ "/video"
    if paths1.contains videoDir then
      let segs := List.insertionSort segLe (globSegments videoDir paths1)
      if segs.isEmpty then ⟨paths1, false⟩
      else
        let fusedPath := videoDir ++ "/fused.mp4"
        let r := mergeVideos moviepyAvail ffmpegOk manifest fusedPath segs paths1
        ⟨r.2, r.1 = .exitOne⟩
    else ⟨paths1, false⟩
  else ⟨paths1, false⟩

/-- Model of `fuse` (`main.py:468-535`): a function of
`get_output_dir(pdf, output_dir)` alone. -/
def fuseFull (pdf outputDir : String) (slidesFlag videoFlag : Bool)
    (moviepyAvail ffmpegOk : Bool) (manifest : String) (st : Store) : FuseRun :=
  fuseAt (getOutputDir pdf outputDir) slidesFlag videoFlag moviepyAvail ffmpegOk manifest st

/-! ## Basic store lemmas -/

theorem mem_insertP_self (p : String) (fs : List String) : p ∈ insertP p fs := by
  unfold insertP
  split
  · simpa using (by assumption : fs.contains p = true)
  · simp

theorem mem_insertP_of (p q : String) (fs : List String)
    (h : q ∈ fs) : q ∈ insertP p fs := by
  unfold insertP
  split
  · exact h
  · simp [h]

theorem not_mem_removeP_self (p : String) (fs : List String) :
    p ∉ removeP p fs := by
  simp [removeP, List.mem_filter]

/-! ## C8 -/

/-- C8: with moviepy unavailable, `_merge_videos` takes the ffmpeg-manifest
fallback; the temporary manifest is absent from the store on both the
success exit and the failure exit (`typer.Exit(1)`), and the call succeeds
exactly when the external encoder does. -/
theorem C8_fusion_manifest_cleanup (ffmpegOk : Bool) (manifest outputPath : String)
    (videoFiles fs : List String) :
    (mergeVideos false ffmpegOk manifest outputPath videoFiles fs).2.contains manifest = false
  ∧ (mergeVideos false ffmpegOk manifest outputPath videoFiles fs).1
      = (if ffmpegOk then MergeOutcome.ok else MergeOutcome.exitOne) := by
  cases ffmpegOk <;>
    simp [mergeVideos, not_mem_removeP_self]

/-! ## C3 -/

/-- C3: for every plan, the slide keys and the video keys are processed
sorted by their numeric suffix, ascending (`keyLe`), and the sorted lists
are permutations of the filtered key lists — so the processing order depends
only on the numeric suffixes, not on the input order or on zero-padding of
the suffix. -/
theorem C3_numeric_suffix_ordering (plan : List (String × String)) :
    (sortedSlideKeys plan).Sorted keyLe
  ∧ (sortedSlideKeys plan).Perm (slideKeys plan)
  ∧ (sortedVideoKeys plan).Sorted keyLe
  ∧ (sortedVideoKeys plan).Perm (videoKeys plan) :=
  ⟨List.sorted_insertionSort keyLe (slideKeys plan),
   List.perm_insertionSort keyLe (slideKeys plan),
   List.sorted_insertionSort keyLe (videoKeys plan),
   List.perm_insertionSort keyLe (videoKeys plan)⟩

/-! ## C7 -/

/-- C7 counterexample: the slide-unit filter is `k.startswith("s")`
(`main.py:171`), which is case-sensitive and pattern-free — so the
uppercase key `"S1"` is NOT processed as a slide unit, while `"style"`
(which does not match `^[sS][0-9]+$`) IS, contradicting the claim. -/
theorem C7_counterexample :
    slideKeys [("S1", "a"), ("style", "b"), ("s2", "c")] = ["style", "s2"]
  ∧ (slideKeys [("S1", "a"), ("style", "b"), ("s2", "c")]).contains "S1" = false
  ∧ (slideKeys [("S1", "a"), ("style", "b"), ("s2", "c")]).contains "style" = true := by
  decide

/-- C7 amended: exactly the plan keys starting with the lowercase letter
`s` are treated as slide units and exactly those starting with lowercase `v`
as transition units (so `"S1"` is not processed and `"style"` is); a
malformed numeric suffix defaults to index 0 rather than failing the sort. -/
theorem C7_amended (plan : List (String × String)) (k : String) :
    (k ∈ slideKeys plan ↔ k ∈ plan.map Prod.fst ∧ pyStartsWith k "s" = true)
  ∧ (k ∈ videoKeys plan ↔ k ∈ plan.map Prod.fst ∧ pyStartsWith k "v" = true)
  ∧ (∀ x : String, pyIsDigit (x.data.drop 1) = false → numKey x = 0) := by
  refine ⟨?_, ?_, ?_⟩
  · simp [slideKeys, List.mem_filter]
  · simp [videoKeys, List.mem_filter]
  · intro x hx
    have hneg : ¬ (1 < x.data.length ∧ pyIsDigit (x.data.drop 1)) := by
      intro hcon
      rw [hx] at hcon
      exact Bool.false_ne_true hcon.2
    unfold numKey
    rw [if_neg hneg]

/-- Witness for C7's amended theorem at a concrete plan and key. -/
theorem C7_amended_witness :
    ("style" ∈ slideKeys [("S1", "a"), ("style", "b"), ("s2", "c")] ↔
      "style" ∈ [("S1", "a"), ("style", "b"), ("s2", "c")].map Prod.fst
        ∧ pyStartsWith "style" "s" = true)
  ∧ numKey "s1x" = 0 :=
  ⟨(C7_amended [("S1", "a"), ("style", "b"), ("s2", "c")] "style").1,
   (C7_amended [] "z").2.2 "s1x" (by decide)⟩

/-! ## Slide-runner lemmas -/

theorem slideStep_prevOut (e : Bool) (d : String) (fs : List String)
    (prev : Option String) (k : String) :
    (slideStep e d fs prev k).2.1 = some (slidePath d k) := by
  by_cases hc : e = true ∧ slidePath d k ∈ fs
  · simp [slideStep, hc]
  · simp [slideStep, hc]

theorem slideStep_rec (e : Bool) (d : String) (fs : List String)
    (prev : Option String) (k : String) :
    (slideStep e d fs prev k).2.2.key = k
  ∧ (slideStep e d fs prev k).2.2.target = slidePath d k
  ∧ (slideStep e d fs prev k).2.2.fsBefore = fs
  ∧ (slideStep e d fs prev k).2.2.prevBefore = prev := by
  by_cases hc : e = true ∧ slidePath d k ∈ fs
  · simp [slideStep, hc]
  · simp [slideStep, hc]

theorem slideStep_ref (e : Bool) (d : String) (fs : List String)
    (prev : Option String) (k : String) (r : Option String)
    (h : (slideStep e d fs prev k).2.2.outcome = .generated r) :
    r = prev.bind (fun p => if fs.contains p then some p else none) := by
  by_cases hc : e = true ∧ slidePath d k ∈ fs
  · simp [slideStep, hc] at h
  · cases prev with
    | none => simpa [slideStep, hc] using h.symm
    | some p =>
      by_cases hp : p ∈ fs
      · simpa [slideStep, hc, hp] using h.symm
      · simpa [slideStep, hc, hp] using h.symm

theorem runSlides_length (e : Bool) (d : String) :
    ∀ (ks : List String) (fs : List String) (prev : Option String),
      ((runSlides e d fs prev ks).2).length = ks.length := by
  intro ks
  induction ks with
  | nil => intro fs prev; rfl
  | cons k t ih =>
    intro fs prev
    simp [runSlides, ih]

theorem runSlides_head (e : Bool) (d : String) :
    ∀ (ks : List String) (fs : List String) (prev : Option String),
      ∀ s ∈ ((runSlides e d fs prev ks).2).head?,
        s.prevBefore = prev ∧ s.fsBefore = fs ∧ s.target = slidePath d (ks.headD "") := by
  intro ks
  cases ks with
  | nil => intro fs prev s hs; simp [runSlides] at hs
  | cons k t =>
    intro fs prev s hs
    simp only [runSlides, List.head?, Option.mem_def, Option.some.injEq] at hs
    have hrec := slideStep_rec e d fs prev k
    subst hs
    exact ⟨hrec.2.2.2, hrec.2.2.1, by simp [hrec.2.1]⟩

theorem runSlides_head_ref (e : Bool) (d : String) (ks : List String)
    (fs : List String) (prev : Option String) :
    ∀ y ∈ ((runSlides e d fs prev ks).2).head?,
      ∀ r, y.outcome = .generated r →
        r = prev.bind (fun p => if fs.contains p then some p else none) := by
  cases ks with
  | nil => intro y hy; simp [runSlides] at hy
  | cons k t =>
    intro y hy r hr
    simp only [runSlides, List.head?, Option.mem_def, Option.some.injEq] at hy
    subst hy
    exact slideStep_ref e d fs prev k r hr

theorem runSlides_chain_ref (e : Bool) (d : String) :
    ∀ (ks : List String) (fs : List String) (prev : Option String),
      List.Chain'
        (fun a b => ∀ r, b.outcome = SlideOutcome.generated r →
            r = if b.fsBefore.contains a.target then some a.target else none)
        ((runSlides e d fs prev ks).2) := by
  intro ks
  induction ks with
  | nil => intro fs prev; simp [runSlides]
  | cons k t ih =>
    intro fs prev
    simp only [runSlides]
    rw [List.chain'_cons']
    constructor
    · intro y hy r hr
      have hhead := runSlides_head e d t (slideStep e d fs prev k).1
        (slideStep e d fs prev k).2.1 y hy
      have href := runSlides_head_ref e d t (slideStep e d fs prev k).1
        (slideStep e d fs prev k).2.1 y hy r hr
      rw [slideStep_prevOut] at href
      have htgt : (slideStep e d fs prev k).2.2.target = slidePath d k :=
        (slideStep_rec e d fs prev k).2.1
      rw [htgt, hhead.2.1]
      simpa using href
    · exact ih (slideStep e d fs prev k).1 (slideStep e d fs prev k).2.1

/-! ## C1 -/

/-- C1: in the slide stage, for every plan, the first unit's generation call
receives no style reference (`reference_image_path = None`), and each later
unit's generation call receives the preceding unit's artifact path as the
reference exactly when that artifact exists on disk at call time
(`main.py:177-216`). -/
theorem C1_reference_chaining (plan : List (String × String)) (exist : Bool)
    (slidesDir : String) (fs0 : List String) :
    (∀ s ∈ ((runSlides exist slidesDir fs0 none (sortedSlideKeys plan)).2).head?,
        ∀ r, s.outcome = SlideOutcome.generated r → r = none)
  ∧ List.Chain'
      (fun a b => ∀ r, b.outcome = SlideOutcome.generated r →
          r = if b.fsBefore.contains a.target then some a.target else none)
      ((runSlides exist slidesDir fs0 none (sortedSlideKeys plan)).2) :=
  ⟨fun s hs r hr => by
      simpa using runSlides_head_ref exist slidesDir (sortedSlideKeys plan) fs0 none s hs r hr,
   runSlides_chain_ref exist slidesDir (sortedSlideKeys plan) fs0 none⟩

/-- Witness for C1 at the concrete plan `{"s1": "x", "s2": "y"}`: the first
unit is generated with no reference. -/
theorem C1_reference_chaining_witness :
    ((runSlides false "d" [] none (sortedSlideKeys [("s1", "x"), ("s2", "y")])).2).head?
      = some ⟨"s1", "d/slide_p1.png", [], none, .generated none⟩
  ∧ (none : Option String) = none :=
  ⟨by decide,
   (C1_reference_chaining [("s1", "x"), ("s2", "y")] false "d" []).1
     ⟨"s1", "d/slide_p1.png", [], none, .generated none⟩
     (Option.mem_def.mpr (by decide)) none (by decide)⟩

/-! ## C2 lemmas -/

theorem slideStep_fs_mono (e : Bool) (d : String) (fs : List String)
    (prev : Option String) (k p : String) (h : p ∈ fs) :
    p ∈ (slideStep e d fs prev k).1 := by
  by_cases hc : e = true ∧ slidePath d k ∈ fs
  · simpa [slideStep, hc] using h
  · simpa [slideStep, hc] using mem_insertP_of (slidePath d k) p fs h

theorem slideStep_fs_target (e : Bool) (d : String) (fs : List String)
    (prev : Option String) (k : String) :
    slidePath d k ∈ (slideStep e d fs prev k).1 := by
  by_cases hc : e = true ∧ slidePath d k ∈ fs
  · simp [slideStep, hc]
  · simpa [slideStep, hc] using mem_insertP_self (slidePath d k) fs

theorem runSlides_fs_mono (e : Bool) (d : String) :
    ∀ (ks : List String) (fs : List String) (prev : Option String) (p : String),
      p ∈ fs → p ∈ (runSlides e d fs prev ks).1 := by
  intro ks
  induction ks with
  | nil => intro fs prev p h; exact h
  | cons k t ih =>
    intro fs prev p h
    exact ih _ _ p (slideStep_fs_mono e d fs prev k p h)

theorem runSlides_fs_targets (e : Bool) (d : String) :
    ∀ (ks : List String) (fs : List String) (prev : Option String) (k : String),
      k ∈ ks → slidePath d k ∈ (runSlides e d fs prev ks).1 := by
  intro ks
  induction ks with
  | nil => intro fs prev k h; simp at h
  | cons k0 t ih =>
    intro fs prev k h
    rcases List.mem_cons.mp h with h0 | h1
    · subst h0
      exact runSlides_fs_mono e d t _ _ _ (slideStep_fs_target e d fs prev k)
    · exact ih _ _ k h1

theorem slideStep_skip (d : String) (fs : List String) (prev : Option String)
    (k : String) (h : slidePath d k ∈ fs) :
    slideStep true d fs prev k = (fs, some (slidePath d k),
      ⟨k, slidePath d k, fs, prev, .skipped⟩) := by
  simp [slideStep, h]

theorem runSlides_all_skip (d : String) :
    ∀ (ks : List String) (fs : List String) (prev : Option String),
      (∀ k ∈ ks, slidePath d k ∈ fs) →
      (runSlides true d fs prev ks).1 = fs
    ∧ ∀ s ∈ (runSlides true d fs prev ks).2, s.outcome = SlideOutcome.skipped := by
  intro ks
  induction ks with
  | nil => intro fs prev _; exact ⟨rfl, by simp [runSlides]⟩
  | cons k t ih =>
    intro fs prev h
    have hk : slidePath d k ∈ fs := h k (List.mem_cons_self k t)
    have ht : ∀ k2 ∈ t, slidePath d k2 ∈ fs := fun k2 hk2 => h k2 (List.mem_cons_of_mem k hk2)
    have hstep := slideStep_skip d fs prev k hk
    have hrest := ih fs (some (slidePath d k)) ht
    constructor
    · simp only [runSlides, hstep]
      exact hrest.1
    · intro s hs
      simp only [runSlides, hstep, List.mem_cons] at hs
      rcases hs with h0 | h1
      · subst h0; rfl
      · exact hrest.2 s h1

theorem runSlides_skip_if_exists (d : String) :
    ∀ (ks : List String) (fs : List String) (prev : Option String),
      ∀ s ∈ (runSlides true d fs prev ks).2,
        s.fsBefore.contains s.target = true → s.outcome = SlideOutcome.skipped := by
  intro ks
  induction ks with
  | nil => intro fs prev s hs; simp [runSlides] at hs
  | cons k t ih =>
    intro fs prev s hs hex
    simp only [runSlides, List.mem_cons] at hs
    rcases hs with h0 | h1
    · subst h0
      have hrec := slideStep_rec true d fs prev k
      rw [hrec.2.2.1, hrec.2.1] at hex
      have hmem : slidePath d k ∈ fs := by simpa using hex
      rw [slideStep_skip d fs prev k hmem]
    · exact ih _ _ s h1 hex

theorem runSlides_chain_prev (e : Bool) (d : String) :
    ∀ (ks : List String) (fs : List String) (prev : Option String),
      List.Chain' (fun a b => b.prevBefore = some a.target)
        ((runSlides e d fs prev ks).2) := by
  intro ks
  induction ks with
  | nil => intro fs prev; simp [runSlides]
  | cons k t ih =>
    intro fs prev
    simp only [runSlides]
    rw [List.chain'_cons']
    constructor
    · intro y hy
      have hhead := runSlides_head e d t (slideStep e d fs prev k).1
        (slideStep e d fs prev k).2.1 y hy
      rw [hhead.1, slideStep_prevOut, (slideStep_rec e d fs prev k).2.1]
    · exact ih (slideStep e d fs prev k).1 (slideStep e d fs prev k).2.1

/-! ## C2 -/

/-- C2: with the skip-if-exists policy on, a unit whose target artifact
already exists at its turn is skipped (no generator call) and `previous` is
still threaded (each later unit sees the preceding unit's target as
`previous`); and re-running the slide stage over the result of any run, with
the policy on, leaves the set of artifact locations identical and skips
every unit, i.e. never re-invokes the generator for a completed unit. -/
theorem C2_skip_idempotence (plan : List (String × String)) (exist : Bool)
    (dir : String) (fs0 : List String) :
    (∀ s ∈ (runSlides true dir fs0 none (sortedSlideKeys plan)).2,
        s.fsBefore.contains s.target = true → s.outcome = SlideOutcome.skipped)
  ∧ List.Chain' (fun a b => b.prevBefore = some a.target)
      ((runSlides true dir fs0 none (sortedSlideKeys plan)).2)
  ∧ (runSlides true dir (runSlides exist dir fs0 none (sortedSlideKeys plan)).1
        none (sortedSlideKeys plan)).1
      = (runSlides exist dir fs0 none (sortedSlideKeys plan)).1
  ∧ (∀ s ∈ (runSlides true dir (runSlides exist dir fs0 none (sortedSlideKeys plan)).1
        none (sortedSlideKeys plan)).2,
      s.outcome = SlideOutcome.skipped) := by
  have hall : ∀ k ∈ sortedSlideKeys plan,
      slidePath dir k ∈ (runSlides exist dir fs0 none (sortedSlideKeys plan)).1 :=
    fun k hk => runSlides_fs_targets exist dir (sortedSlideKeys plan) fs0 none k hk
  have hskip := runSlides_all_skip dir (sortedSlideKeys plan)
    (runSlides exist dir fs0 none (sortedSlideKeys plan)).1 none hall
  exact ⟨runSlides_skip_if_exists dir (sortedSlideKeys plan) fs0 none,
    runSlides_chain_prev true dir (sortedSlideKeys plan) fs0 none,
    hskip.1, hskip.2⟩

/-- Witness for C2 at the concrete plan `{"s1": "x", "s2": "y"}` starting
from an empty store: the re-run changes no artifact locations and its first
unit is skipped. -/
theorem C2_skip_idempotence_witness :
    (runSlides true "d" (runSlides false "d" [] none
        (sortedSlideKeys [("s1", "x"), ("s2", "y")])).1 none
        (sortedSlideKeys [("s1", "x"), ("s2", "y")])).1
      = (runSlides false "d" [] none (sortedSlideKeys [("s1", "x"), ("s2", "y")])).1
  ∧ SlideStep.outcome ⟨"s1", "d/slide_p1.png", ["d/slide_p2.png", "d/slide_p1.png"],
      none, .skipped⟩ = SlideOutcome.skipped :=
  ⟨(C2_skip_idempotence [("s1", "x"), ("s2", "y")] false "d" []).2.2.1,
   (C2_skip_idempotence [("s1", "x"), ("s2", "y")] false "d" []).2.2.2
     ⟨"s1", "d/slide_p1.png", ["d/slide_p2.png", "d/slide_p1.png"], none, .skipped⟩
     (by decide)⟩

/-! ## C6 -/

/-- C6 counterexample: the plan `{"s1": "a", "s01": "b"}` has two keys with
the same numeric index 1.  No rejection happens: the sort keeps both keys
(stable order), the loop processes both — the generator is invoked for each
(`generated` outcomes) — and both target the same artifact path
`slide_p1.png`, the second call even using the first unit's artifact as its
style reference.  There is no `DuplicateUnitError` anywhere in the code. -/
theorem C6_counterexample :
    sortedSlideKeys [("s1", "a"), ("s01", "b")] = ["s1", "s01"]
  ∧ (runSlides false "d" [] none (sortedSlideKeys [("s1", "a"), ("s01", "b")])).2.map
      (fun s => s.outcome)
      = [SlideOutcome.generated none, SlideOutcome.generated (some "d/slide_p1.png")]
  ∧ (runSlides false "d" [] none (sortedSlideKeys [("s1", "a"), ("s01", "b")])).2.map
      (fun s => s.target)
      = ["d/slide_p1.png", "d/slide_p1.png"] := by
  decide

/-- C6 amended: duplicate numeric indices are not rejected — every slide key
of the plan is processed as its own unit (one loop step per key), and any
two keys with the same numeric index map to the same artifact path, so the
later unit's write overwrites the earlier one's. -/
theorem C6_amended (plan : List (String × String)) (exist : Bool) (dir : String)
    (fs0 : List String) (k1 k2 : String) (h : numKey k1 = numKey k2) :
    ((runSlides exist dir fs0 none (sortedSlideKeys plan)).2).length
      = (slideKeys plan).length
  ∧ slidePath dir k1 = slidePath dir k2 := by
  constructor
  · rw [runSlides_length]
    exact (List.perm_insertionSort keyLe (slideKeys plan)).length_eq
  · unfold slidePath
    rw [h]

/-- Witness for C6's amended theorem at the duplicate-index plan. -/
theorem C6_amended_witness :
    numKey "s1" = numKey "s01"
  ∧ ((runSlides false "d" [] none (sortedSlideKeys [("s1", "a"), ("s01", "b")])).2).length
      = (slideKeys [("s1", "a"), ("s01", "b")]).length
  ∧ slidePath "d" "s1" = slidePath "d" "s01" :=
  ⟨by decide,
   (C6_amended [("s1", "a"), ("s01", "b")] false "d" [] "s1" "s01" (by decide)).1,
   (C6_amended [("s1", "a"), ("s01", "b")] false "d" [] "s1" "s01" (by decide)).2⟩

/-! ## C4 lemmas -/

theorem videoStep_rec (e : Bool) (oracle : String → Option VideoBytes)
    (sd vd : String) (fs : List String) (k : String) :
    (videoStep e oracle sd vd fs k).2.key = k
  ∧ (videoStep e oracle sd vd fs k).2.target = segmentPath vd (numKey k)
  ∧ (videoStep e oracle sd vd fs k).2.fsBefore = fs := by
  simp only [videoStep]
  split
  · exact ⟨rfl, rfl, rfl⟩
  · split
    · exact ⟨rfl, rfl, rfl⟩
    · split
      · split
        · exact ⟨rfl, rfl, rfl⟩
        · exact ⟨rfl, rfl, rfl⟩
      · exact ⟨rfl, rfl, rfl⟩

theorem videoStep_missing (e : Bool) (oracle : String → Option VideoBytes)
    (sd vd : String) (fs : List String) (k : String)
    (hns : ¬ (e = true ∧ fs.contains (segmentPath vd (numKey k)) = true))
    (hmiss : fs.contains (slideArtifactPath sd (numKey k)) = false
           ∨ fs.contains (slideArtifactPath sd (numKey k + 1)) = false) :
    (videoStep e oracle sd vd fs k).2.outcome = VideoOutcome.missingDep := by
  have hmiss2 : ¬ fs.contains (slideArtifactPath sd (numKey k)) = true
              ∨ ¬ fs.contains (slideArtifactPath sd (numKey k + 1)) = true := by
    rcases hmiss with h | h
    · exact Or.inl (by intro hc; rw [hc] at h; cases h)
    · exact Or.inr (by intro hc; rw [hc] at h; cases h)
  simp only [videoStep]
  rw [if_neg hns, if_pos hmiss2]

theorem runVideos_length (e : Bool) (oracle : String → Option VideoBytes)
    (sd vd : String) :
    ∀ (ks : List String) (fs : List String),
      ((runVideos e oracle sd vd fs ks).2).length = ks.length := by
  intro ks
  induction ks with
  | nil => intro fs; rfl
  | cons k t ih =>
    intro fs
    simp [runVideos, ih]

theorem runVideos_missing (e : Bool) (oracle : String → Option VideoBytes)
    (sd vd : String) :
    ∀ (ks : List String) (fs : List String),
      ∀ s ∈ (runVideos e oracle sd vd fs ks).2,
        ¬ (e = true ∧ s.fsBefore.contains s.target = true) →
        (s.fsBefore.contains (slideArtifactPath sd (numKey s.key)) = false
          ∨ s.fsBefore.contains (slideArtifactPath sd (numKey s.key + 1)) = false) →
        s.outcome = VideoOutcome.missingDep := by
  intro ks
  induction ks with
  | nil => intro fs s hs; simp [runVideos] at hs
  | cons k t ih =>
    intro fs s hs hns hmiss
    simp only [runVideos, List.mem_cons] at hs
    rcases hs with h0 | h1
    · have hrec := videoStep_rec e oracle sd vd fs k
      subst h0
      rw [hrec.2.2, hrec.2.1] at hns
      rw [hrec.2.2, hrec.1] at hmiss
      exact videoStep_missing e oracle sd vd fs k hns hmiss
    · exact ih _ s h1 hns hmiss

/-! ## C4 -/

/-- C4: in the video stage, a transition unit whose target was not already
skipped by the skip-if-exists policy and whose bracketing slide artifacts
`slide_p<i>` or `slide_p<i+1>` are absent from the store at its turn gets
outcome `missingDep` — a recorded warning (`main.py:304-308`) — and the loop
goes on: the run is total and yields exactly one step per unit, so partial
completion terminates the stage normally instead of aborting it. -/
theorem C4_dependency_gating (plan : List (String × String)) (exist : Bool)
    (oracle : String → Option VideoBytes) (slidesDir videoDir : String)
    (fs0 : List String) :
    ((runVideos exist oracle slidesDir videoDir fs0 (sortedVideoKeys plan)).2).length
      = (sortedVideoKeys plan).length
  ∧ ∀ s ∈ (runVideos exist oracle slidesDir videoDir fs0 (sortedVideoKeys plan)).2,
      ¬ (exist = true ∧ s.fsBefore.contains s.target = true) →
      (s.fsBefore.contains (slideArtifactPath slidesDir (numKey s.key)) = false
        ∨ s.fsBefore.contains (slideArtifactPath slidesDir (numKey s.key + 1)) = false) →
      s.outcome = VideoOutcome.missingDep :=
  ⟨runVideos_length exist oracle slidesDir videoDir (sortedVideoKeys plan) fs0,
   runVideos_missing exist oracle slidesDir videoDir (sortedVideoKeys plan) fs0⟩

/-- Witness for C4 at the concrete plan `{"v1": "t"}` with no slide
artifacts in the store: the single transition unit ends as `missingDep`. -/
theorem C4_dependency_gating_witness :
    ((runVideos false (fun _ => none) "sd" "vd" [] (sortedVideoKeys [("v1", "t")])).2).length
      = (sortedVideoKeys [("v1", "t")]).length
  ∧ VideoStep.outcome ⟨"v1", "vd/segment_1.mp4", [], .missingDep⟩ = VideoOutcome.missingDep :=
  ⟨(C4_dependency_gating [("v1", "t")] false (fun _ => none) "sd" "vd" []).1,
   (C4_dependency_gating [("v1", "t")] false (fun _ => none) "sd" "vd" []).2
     ⟨"v1", "vd/segment_1.mp4", [], .missingDep⟩ (by decide) (by decide)
     (Or.inl (by decide))⟩

/-! ## C5 -/

theorem pollLoop_spec (ops : Nat → Operation) :
    ∀ (fuel i slept j s : Nat), pollLoop ops i slept fuel = some (j, s) →
      (ops j).done = true ∧ i ≤ j
    ∧ (∀ m, i ≤ m → m < j → (ops m).done = false)
    ∧ s = slept + 10 * (j - i) := by
  intro fuel
  induction fuel with
  | zero => intro i slept j s h; cases h
  | succ f ih =>
    intro i slept j s h
    by_cases hd : (ops i).done = true
    · rw [pollLoop, if_pos hd] at h
      injection h with h'
      injection h' with h1 h2
      subst h1
      subst h2
      exact ⟨hd, Nat.le_refl i, fun m h1 h2 => absurd (Nat.lt_of_le_of_lt h1 h2) (Nat.lt_irrefl i),
        by omega⟩
    · rw [pollLoop, if_neg hd] at h
      have hspec := ih (i + 1) (slept + 10) j s h
      refine ⟨hspec.1, Nat.le_of_succ_le hspec.2.1, ?_, ?_⟩
      · intro m hm1 hm2
        rcases Nat.eq_or_lt_of_le hm1 with he | hlt
        · subst he
          exact Bool.not_eq_true _ ▸ Bool.eq_false_iff.mpr hd
        · exact hspec.2.2.1 m hlt hm2
      · have := hspec.2.2.2
        have h21 : i + 1 ≤ j := hspec.2.1
        omega

/-- C5: the video-interpolation adapter blocks by polling: when the call
completes, the final operation is the first fetched operation reporting
done, every earlier fetch was not done, the accumulated blocking time is
exactly 10 seconds per poll iteration, and the call returns the provider's
first generated video — or the no-result failure signal (the spec's
`GenerationFailedError`) when the provider reports no response or an empty
video list (`google_caller.py:121-169`, surfaced at `main.py:331-335`). -/
theorem C5_adapter_polling (ops : Nat → Operation) (fuel : Nat) (run : AdapterRun)
    (h : generateVideoInterpolation ops fuel = some run) :
    run.finalOp = ops run.doneIndex
  ∧ run.finalOp.done = true
  ∧ (∀ j, j < run.doneIndex → (ops j).done = false)
  ∧ run.sleptSeconds = 10 * run.doneIndex
  ∧ (∀ v l, run.finalOp.response = some (v :: l) → genOutcome run = GenOutcome.artifact v)
  ∧ ((run.finalOp.response = none ∨ run.finalOp.response = some []) →
        genOutcome run = GenOutcome.generationFailed) := by
  unfold generateVideoInterpolation at h
  cases hp : pollLoop ops 0 0 fuel with
  | none => rw [hp] at h; cases h
  | some p =>
    rw [hp] at h
    obtain ⟨i, s⟩ := p
    have hspec := pollLoop_spec ops fuel 0 0 i s hp
    simp only [Option.some.injEq] at h
    subst h
    refine ⟨rfl, hspec.1, fun j hj => hspec.2.2.1 j (Nat.zero_le j) hj, by
      have := hspec.2.2.2
      simpa using this, ?_, ?_⟩
    · intro v l hresp
      have hr2 : (ops i).response = some (v :: l) := hresp
      show genOutcome _ = GenOutcome.artifact v
      rw [genOutcome, hr2]
    · intro hresp
      rcases hresp with hr | hr
      · have hr2 : (ops i).response = none := hr
        rw [genOutcome, hr2]
      · have hr2 : (ops i).response = some [] := hr
        rw [genOutcome, hr2]

/-- Witness for C5: a provider trace that is pending for two polls and then
done with one video; the adapter slept 20 seconds = 10 × 2 and returns the
video artifact. -/
theorem C5_adapter_polling_witness :
    generateVideoInterpolation
        (fun n => if n < 2 then ⟨false, none⟩ else ⟨true, some [[7]]⟩) 5
      = some ⟨2, 20, ⟨true, some [[7]]⟩, some [7]⟩
  ∧ AdapterRun.sleptSeconds ⟨2, 20, ⟨true, some [[7]]⟩, some [7]⟩
      = 10 * AdapterRun.doneIndex ⟨2, 20, ⟨true, some [[7]]⟩, some [7]⟩
  ∧ genOutcome ⟨2, 20, ⟨true, some [[7]]⟩, some [7]⟩ = GenOutcome.artifact [7] :=
  ⟨by decide,
   (C5_adapter_polling (fun n => if n < 2 then ⟨false, none⟩ else ⟨true, some [[7]]⟩) 5
     ⟨2, 20, ⟨true, some [[7]]⟩, some [7]⟩ (by decide)).2.2.2.1,
   (C5_adapter_polling (fun n => if n < 2 then ⟨false, none⟩ else ⟨true, some [[7]]⟩) 5
     ⟨2, 20, ⟨true, some [[7]]⟩, some [7]⟩ (by decide)).2.2.2.2.1 [7] [] rfl⟩

/-! ## C9 -/

theorem insertionSort_pptx_nil_iff (l : List String) :
    List.insertionSort pptxLe l = [] ↔ l = [] := by
  constructor
  · intro h
    have hperm := List.perm_insertionSort pptxLe l
    rw [h] at hperm
    exact hperm.symm.eq_nil
  · intro h
    subst h
    rfl

/-- C9: `_create_pptx` is a warning no-op exactly when zero slide artifacts
match the glob, and otherwise produces a 13.333 in × 7.5 in (the source's
16:9 setting) composite whose pages are the slide artifacts in sorted order,
each placed at the origin with the full slide width and height
(`main.py:32-74`). -/
theorem C9_slide_fusion (dir : String) (fs : List String) :
    (createPptx dir fs = PptxResult.noSlidesWarning ↔ globSlides dir fs = [])
  ∧ ∀ prs, createPptx dir fs = PptxResult.created prs →
      prs.slideWidth = 13333 ∧ prs.slideHeight = 7500
    ∧ prs.pages.map Pic.image = List.insertionSort pptxLe (globSlides dir fs)
    ∧ (prs.pages.map Pic.image).Sorted pptxLe
    ∧ (prs.pages.map Pic.image).Perm (globSlides dir fs)
    ∧ (∀ pic ∈ prs.pages, pic.left = 0 ∧ pic.top = 0
        ∧ pic.width = prs.slideWidth ∧ pic.height = prs.slideHeight) := by
  constructor
  · unfold createPptx
    by_cases he : (List.insertionSort pptxLe (globSlides dir fs)).isEmpty = true
    · rw [if_pos he]
      have hnil := (insertionSort_pptx_nil_iff (globSlides dir fs)).mp
        (List.isEmpty_iff.mp he)
      exact ⟨fun _ => hnil, fun _ => rfl⟩
    · rw [if_neg he]
      constructor
      · intro hcon; cases hcon
      · intro hnil
        exact absurd (List.isEmpty_iff.mpr
          ((insertionSort_pptx_nil_iff (globSlides dir fs)).mpr hnil)) he
  · intro prs hprs
    unfold createPptx at hprs
    by_cases he : (List.insertionSort pptxLe (globSlides dir fs)).isEmpty = true
    · rw [if_pos he] at hprs; cases hprs
    · rw [if_neg he] at hprs
      injection hprs with hprs
      subst hprs
      have him : (List.map (fun f => Pic.mk f 0 0 13333 7500)
            (List.insertionSort pptxLe (globSlides dir fs))).map Pic.image
          = List.insertionSort pptxLe (globSlides dir fs) := by
        simp [List.map_map, Function.comp_def]
      refine ⟨rfl, rfl, him, ?_, ?_, ?_⟩
      · rw [him]
        exact List.sorted_insertionSort pptxLe (globSlides dir fs)
      · rw [him]
        exact List.perm_insertionSort pptxLe (globSlides dir fs)
      · intro pic hpic
        simp only [List.mem_map] at hpic
        obtain ⟨f, _, hf⟩ := hpic
        subst hf
        exact ⟨rfl, rfl, rfl, rfl⟩

/-- Witness for C9 at a concrete store with two slide artifacts in scrambled
name order: the composite's pages are `slide_p1.png` then `slide_p10.png`
(numeric, not lexicographic, order). -/
theorem C9_slide_fusion_witness :
    createPptx "sd" ["sd/slide_p10.png", "sd/slide_p1.png"]
      = PptxResult.created ⟨13333, 7500,
          [⟨"sd/slide_p1.png", 0, 0, 13333, 7500⟩,
           ⟨"sd/slide_p10.png", 0, 0, 13333, 7500⟩]⟩
  ∧ (Pptx.pages ⟨13333, 7500,
        [⟨"sd/slide_p1.png", 0, 0, 13333, 7500⟩,
         ⟨"sd/slide_p10.png", 0, 0, 13333, 7500⟩]⟩).map Pic.image
      = List.insertionSort pptxLe (globSlides "sd" ["sd/slide_p10.png", "sd/slide_p1.png"]) :=
  ⟨by decide,
   ((C9_slide_fusion "sd" ["sd/slide_p10.png", "sd/slide_p1.png"]).2
     ⟨13333, 7500,
       [⟨"sd/slide_p1.png", 0, 0, 13333, 7500⟩,
        ⟨"sd/slide_p10.png", 0, 0, 13333, 7500⟩]⟩ (by decide)).2.2.1⟩

/-! ## C10 -/

/-- C10: the slide-generation, video-generation and fusion stages depend on
the `pdf` argument only through `Path(pdf).stem` (via `get_output_dir`,
`main.py:21-29`): two invocations whose pdf paths share a stem behave
identically on the same store — the pdf's contents, directory, extension, or
existence are never consulted. -/
theorem C10_pdf_stem_noninterference (p1 p2 outputDir : String)
    (planFileArg : Option String) (exist : Bool)
    (oracle : String → Option VideoBytes)
    (slidesFlag videoFlag moviepyAvail ffmpegOk : Bool) (manifest : String)
    (st : Store) (h : pathStem p1 = pathStem p2) :
    genSlideFull p1 outputDir planFileArg exist st
      = genSlideFull p2 outputDir planFileArg exist st
  ∧ genVideoFull p1 outputDir planFileArg exist oracle st
      = genVideoFull p2 outputDir planFileArg exist oracle st
  ∧ fuseFull p1 outputDir slidesFlag videoFlag moviepyAvail ffmpegOk manifest st
      = fuseFull p2 outputDir slidesFlag videoFlag moviepyAvail ffmpegOk manifest st := by
  have hdir : getOutputDir p1 outputDir = getOutputDir p2 outputDir := by
    unfold getOutputDir
    rw [h]
  refine ⟨?_, ?_, ?_⟩
  · unfold genSlideFull
    rw [hdir]
  · unfold genVideoFull
    rw [hdir]
  · unfold fuseFull
    rw [hdir]

/-- Witness for C10: `docs/report.pdf` and `archive/report.docx` share the
stem `report`, and a nonexistent pdf is fine — the stages coincide on a
concrete store. -/
theorem C10_pdf_stem_noninterference_witness :
    pathStem "docs/report.pdf" = pathStem "archive/report.docx"
  ∧ genSlideFull "docs/report.pdf" "out" none false ⟨[], []⟩
      = genSlideFull "archive/report.docx" "out" none false ⟨[], []⟩
  ∧ fuseFull "docs/report.pdf" "out" true true true true "m.txt" ⟨[], []⟩
      = fuseFull "archive/report.docx" "out" true true true true "m.txt" ⟨[], []⟩ :=
  ⟨by decide,
   (C10_pdf_stem_noninterference "docs/report.pdf" "archive/report.docx" "out" none false
     (fun _ => none) true true true true "m.txt" ⟨[], []⟩ (by decide)).1,
   (C10_pdf_stem_noninterference "docs/report.pdf" "archive/report.docx" "out" none false
     (fun _ => none) true true true true "m.txt" ⟨[], []⟩ (by decide)).2.2⟩
